import Mathlib

/-!
Shallow embedding of `src/main.py` (Study Tracker).

The program has two components: `SessionDatabase`, a SQLite wrapper with
three operations (`add_session`, `get_all_sessions`, `get_session`), and
`StudyTrackerApp`, a Tkinter controller holding the transient timing state
(`_start_time`, `_elapsed`, `_mode`, `_target_seconds`, `_running`,
`_timer_job`) with handlers `start_session`, `pause_session`,
`resume_session`, `stop_session`, `_update_timer` and `_on_mode_change`.

Modelling conventions:
* wall-clock timestamps and durations are rationals (seconds); each handler
  receives the current `datetime.now()` value as an explicit `now` argument;
* `_start_time : datetime | None` becomes `Option ℚ`; an operation that
  would raise in Python (subtracting from `None`) returns `none`;
* the SQLite table becomes a list of rows plus the next AUTOINCREMENT id;
  `ORDER BY start_time DESC` becomes an insertion sort (lexicographic order
  on the ISO-8601 text agrees with the order on the timestamps themselves);
* `self.notes_text.get("1.0", tk.END)` returns the widget content followed
  by one `"\n"`, and Python's `str.strip()` is modelled by `pyStrip`;
* `self.after(200, ...)` / `self.after_cancel(...)` are modelled by a
  Boolean `timer_job` flag saying whether a tick callback is pending; a
  `tick` event fires only when the flag is set, consumes it, and runs
  `_update_timer` (which re-sets the flag when it reschedules).
-/

namespace StudyTracker

/-- Session mode: the `_mode` field, `"stopwatch"` or `"timer"`. -/
inductive Mode
  | stopwatch
  | timer
deriving DecidableEq

/-- One row of the `sessions` table (`id` is the AUTOINCREMENT primary key;
`start_time` / `end_time` are the stored timestamps, `duration` the stored
real number of seconds, `notes` the stored text). -/
structure Row where
  id : ℕ
  start_time : ℚ
  end_time : ℚ
  duration : ℚ
  notes : String
deriving DecidableEq

/-- The `sessions` table: its rows in insertion order, plus the next id the
AUTOINCREMENT column will assign. -/
structure DB where
  rows : List Row
  next_id : ℕ
deriving DecidableEq

/-- `SessionDatabase.add_session`: `INSERT INTO sessions (start_time,
end_time, duration, notes) VALUES (?, ?, ?, ?)` followed by `commit`.
Returns the new table together with the inserted row. -/
def add_session (db : DB) (start endT duration : ℚ) (notes : String) :
    DB × Row :=
  let r : Row :=
    { id := db.next_id
      start_time := start
      end_time := endT
      duration := duration
      notes := notes }
  ({ rows := db.rows ++ [r], next_id := db.next_id + 1 }, r)

/-- Comparison used by `ORDER BY start_time DESC`: `a` comes no later than
`b` in the output when `b.start_time ≤ a.start_time`. -/
def rowGe (a b : Row) : Prop := b.start_time ≤ a.start_time

instance : DecidableRel rowGe := fun a b =>
  inferInstanceAs (Decidable (b.start_time ≤ a.start_time))

instance : IsTotal Row rowGe :=
  ⟨fun a b => le_total b.start_time a.start_time⟩

instance : IsTrans Row rowGe :=
  ⟨fun _ _ _ h1 h2 => le_trans h2 h1⟩

/-- `SessionDatabase.get_all_sessions`: `SELECT id, start_time, duration
FROM sessions ORDER BY start_time DESC`. -/
def get_all_sessions (db : DB) : List (ℕ × ℚ × ℚ) :=
  (db.rows.insertionSort rowGe).map fun r => (r.id, r.start_time, r.duration)

/-- `SessionDatabase.get_session`: `SELECT * FROM sessions WHERE id = ?`,
`fetchone`. -/
def get_session (db : DB) (session_id : ℕ) : Option Row :=
  db.rows.find? fun r => r.id == session_id

/-- The six characters Python's default `str.strip()` removes from ASCII
text: space, tab, newline, vertical tab, form feed, carriage return. -/
def pyIsSpace (c : Char) : Bool :=
  c = ' ' || c = '\t' || c = '\n' || c = '\x0b' || c = '\x0c' || c = '\r'

/-- Python `str.strip()` on the underlying character list: drop whitespace
from the right end, then from the left end. -/
def pyStripList (l : List Char) : List Char :=
  ((l.reverse.dropWhile pyIsSpace).reverse).dropWhile pyIsSpace

/-- Python `str.strip()`. -/
def pyStrip (s : String) : String := ⟨pyStripList s.data⟩

/-- The transient state of `StudyTrackerApp`, together with the notes
widget content and the database it writes to. `timer_job` says whether an
`after`-scheduled tick callback is currently pending. -/
structure AppState where
  start_time : Option ℚ
  elapsed : ℚ
  mode : Mode
  target_seconds : ℚ
  running : Bool
  timer_job : Bool
  notes : String
  db : DB
deriving DecidableEq

/-- What `stop_session` did: showed the "No session" message box, or saved
the given row (the "Session Saved" path). -/
inductive StopOutcome
  | nothingToStop
  | saved (r : Row)
deriving DecidableEq

/-- The state `StudyTrackerApp.__init__` builds over a given database. -/
def initState (db : DB) : AppState :=
  { start_time := none
    elapsed := 0
    mode := Mode.stopwatch
    target_seconds := 0
    running := false
    timer_job := false
    notes := ""
    db := db }

/-- `StudyTrackerApp.stop_session`.  Guard: `if not (self._running or
self._elapsed > 0)` show "No session" and return.  Otherwise it computes
`elapsed = (now - self._start_time).total_seconds() + self._elapsed`
unconditionally, clamps the duration to `_target_seconds` when the mode is
`"timer"` and `elapsed >= self._target_seconds`, persists the row with
`start = self._start_time`, strips the notes widget text, and resets the
transient state (it does not cancel `_timer_job`). -/
def stop_session (now : ℚ) (s : AppState) : Option (AppState × StopOutcome) :=
  if ¬ (s.running = true ∨ 0 < s.elapsed) then
    some (s, StopOutcome.nothingToStop)
  else
    match s.start_time with
    | none => none
    | some st =>
      let elapsed := (now - st) + s.elapsed
      let duration :=
        if s.mode = Mode.timer ∧ s.target_seconds ≤ elapsed then
          s.target_seconds
        else elapsed
      let ins := add_session s.db st now duration (pyStrip (s.notes ++ "\n"))
      some ({ s with
                running := false
                elapsed := 0
                start_time := none
                target_seconds := 0
                notes := ""
                db := ins.1 },
            StopOutcome.saved ins.2)

/-- `StudyTrackerApp._update_timer`.  Returns immediately when not running;
otherwise computes the live elapsed time from `_start_time`; in timer mode,
when `remaining = max(target - elapsed, 0)` has reached 0 it calls
`stop_session` and returns without rescheduling; in every other case it
reschedules itself (`timer_job := true`). -/
def update_timer (now : ℚ) (s : AppState) : Option AppState :=
  if s.running = false then some s
  else
    match s.start_time with
    | none => none
    | some st =>
      match s.mode with
      | Mode.stopwatch => some { s with timer_job := true }
      | Mode.timer =>
        let elapsed := (now - st) + s.elapsed
        let remaining := max (s.target_seconds - elapsed) 0
        if remaining ≤ 0 then (stop_session now s).map (fun p => p.1)
        else some { s with timer_job := true }

/-- `StudyTrackerApp.start_session`.  Returns unchanged when `_running`.
In timer mode it prompts for minutes (`minutes = none` models a cancelled
dialog, which aborts with no state change), sets `_target_seconds =
minutes * 60` and resets `_elapsed` to 0; in stopwatch mode it only sets
`_target_seconds = 0`.  Then it sets `_start_time = now`, `_running =
True` and calls `_update_timer`. -/
def start_session (now : ℚ) (minutes : Option ℕ) (s : AppState) :
    Option AppState :=
  if s.running = true then some s
  else
    match s.mode with
    | Mode.timer =>
      match minutes with
      | none => some s
      | some m =>
        update_timer now
          { s with
              target_seconds := (m : ℚ) * 60
              elapsed := 0
              start_time := some now
              running := true }
    | Mode.stopwatch =>
      update_timer now
        { s with
            target_seconds := 0
            start_time := some now
            running := true }

/-- `StudyTrackerApp.pause_session`.  Returns unchanged when not running;
otherwise cancels the pending tick (`after_cancel`), adds
`(now - self._start_time).total_seconds()` to `_elapsed` and clears
`_running`.  `_start_time` is left as it is. -/
def pause_session (now : ℚ) (s : AppState) : Option AppState :=
  if s.running = false then some s
  else
    match s.start_time with
    | none => none
    | some st =>
      some { s with
               timer_job := false
               elapsed := s.elapsed + (now - st)
               running := false }

/-- `StudyTrackerApp.resume_session`.  Returns unchanged when running;
otherwise sets `_start_time = now`, `_running = True` and calls
`_update_timer`. -/
def resume_session (now : ℚ) (s : AppState) : Option AppState :=
  if s.running = true then some s
  else
    update_timer now { s with start_time := some now, running := true }

/-- `StudyTrackerApp._on_mode_change`.  Sets `self._mode` from the radio
variable FIRST, then, if `_running or _elapsed > 0`, calls `stop_session`,
and finally resets `_target_seconds` to 0. -/
def on_mode_change (now : ℚ) (newMode : Mode) (s : AppState) :
    Option AppState :=
  let s1 := { s with mode := newMode }
  let s2 : Option AppState :=
    if s1.running = true ∨ 0 < s1.elapsed then
      (stop_session now s1).map (fun p => p.1)
    else some s1
  s2.map fun t => { t with target_seconds := 0 }

/-- UI events that drive the controller: the four buttons, the mode radio
buttons, the firing of a scheduled tick callback, and typing in the notes
widget. -/
inductive Ev
  | start (minutes : Option ℕ)
  | pause
  | resume
  | stop
  | tick
  | modeChange (m : Mode)
  | setNotes (n : String)

/-- One event dispatch at wall-clock time `now`.  A `tick` event fires only
when a callback is pending; firing consumes the pending job before
`_update_timer` runs (which reschedules when it wants another tick). -/
def step (now : ℚ) (e : Ev) (s : AppState) : Option AppState :=
  match e with
  | Ev.start m => start_session now m s
  | Ev.pause => pause_session now s
  | Ev.resume => resume_session now s
  | Ev.stop => (stop_session now s).map (fun p => p.1)
  | Ev.tick =>
    if s.timer_job = true then update_timer now { s with timer_job := false }
    else some s
  | Ev.modeChange m => on_mode_change now m s
  | Ev.setNotes n => some { s with notes := n }

/-- Run a trace of timestamped events from a state. -/
def run : List (ℚ × Ev) → AppState → Option AppState
  | [], s => some s
  | (t, e) :: rest, s => (step t e s).bind (run rest)

/-- A session is open exactly when `_running or _elapsed > 0` — the guard
`stop_session` and `_on_mode_change` test. -/
def isOpen (s : AppState) : Prop := s.running = true ∨ 0 < s.elapsed

instance (s : AppState) : Decidable (isOpen s) :=
  inferInstanceAs (Decidable (_ ∨ _))

/-! Small simp lemmas used when evaluating concrete traces. -/

@[simp] theorem stopwatch_ne_timer : ¬ (Mode.stopwatch = Mode.timer) := by
  intro h
  exact Mode.noConfusion h

@[simp] theorem timer_ne_stopwatch : ¬ (Mode.timer = Mode.stopwatch) := by
  intro h
  exact Mode.noConfusion h

/-- The empty database, with AUTOINCREMENT about to assign id 1 (what
`_create_table` yields on a fresh file). -/
def emptyDB : DB := { rows := [], next_id := 1 }

/-- The duration `stop_session` records when it saves: the unconditional
`(now - start) + elapsed`, clamped to the target in timer mode once the
target is reached. -/
def stopDuration (now st : ℚ) (s : AppState) : ℚ :=
  if s.mode = Mode.timer ∧ s.target_seconds ≤ (now - st) + s.elapsed then
    s.target_seconds
  else (now - st) + s.elapsed

/-- The row `stop_session` inserts when it saves. -/
def stopRow (now st : ℚ) (s : AppState) : Row :=
  { id := s.db.next_id
    start_time := st
    end_time := now
    duration := stopDuration now st s
    notes := pyStrip (s.notes ++ "\n") }

/-- The controller state after a saving `stop_session`. -/
def stoppedState (now st : ℚ) (s : AppState) : AppState :=
  { s with
      running := false
      elapsed := 0
      start_time := none
      target_seconds := 0
      notes := ""
      db := { rows := s.db.rows ++ [stopRow now st s]
              next_id := s.db.next_id + 1 } }

theorem stop_session_open (s : AppState) (now st : ℚ)
    (hst : s.start_time = some st) (hopen : isOpen s) :
    stop_session now s =
      some (stoppedState now st s, StopOutcome.saved (stopRow now st s)) := by
  have h1 : ¬ ¬ (s.running = true ∨ 0 < s.elapsed) := not_not_intro hopen
  simp only [stop_session, if_neg h1, hst]
  rfl

theorem stop_session_closed (s : AppState) (now : ℚ) (hopen : ¬ isOpen s) :
    stop_session now s = some (s, StopOutcome.nothingToStop) := by
  have h1 : ¬ (s.running = true ∨ 0 < s.elapsed) := hopen
  unfold stop_session
  rw [if_pos h1]

theorem stop_session_no_start (s : AppState) (now : ℚ)
    (hopen : isOpen s) (hst : s.start_time = none) :
    stop_session now s = none := by
  have h1 : ¬ ¬ (s.running = true ∨ 0 < s.elapsed) := not_not_intro hopen
  unfold stop_session
  rw [if_neg h1, hst]

theorem stop_session_saved_inv {now : ℚ} {s s1 : AppState} {r : Row}
    (h : stop_session now s = some (s1, StopOutcome.saved r)) :
    ∃ st, s.start_time = some st ∧ isOpen s ∧
      r = stopRow now st s ∧ s1 = stoppedState now st s := by
  by_cases hopen : isOpen s
  · cases hst : s.start_time with
    | none =>
      rw [stop_session_no_start s now hopen hst] at h
      exact absurd h (by simp)
    | some st =>
      rw [stop_session_open s now st hst hopen] at h
      simp only [Option.some_inj, Prod.mk.injEq, StopOutcome.saved.injEq] at h
      exact ⟨st, rfl, hopen, h.2.symm, h.1.symm⟩
  · rw [stop_session_closed s now hopen] at h
    simp at h

theorem stop_session_isSome (s : AppState) (now : ℚ)
    (hst : isOpen s → s.start_time ≠ none) :
    (stop_session now s).isSome = true := by
  by_cases hopen : isOpen s
  · cases h : s.start_time with
    | none => exact absurd h (hst hopen)
    | some st => rw [stop_session_open s now st h hopen]; rfl
  · rw [stop_session_closed s now hopen]; rfl

/-! Facts about `pyStrip` and the notes round trip. -/

theorem pyStripList_append_newline (l : List Char) :
    pyStripList (l ++ ['\n']) = pyStripList l := by
  unfold pyStripList
  rw [List.reverse_append]
  simp [List.dropWhile, pyIsSpace]

theorem pyStrip_append_newline (n : String) :
    pyStrip (n ++ "\n") = pyStrip n := by
  unfold pyStrip
  rw [String.data_append]
  exact congrArg String.mk (pyStripList_append_newline n.data)

theorem pyStripList_decomp (l : List Char) :
    ∃ pre post, l = pre ++ pyStripList l ++ post ∧
      (∀ c ∈ pre, pyIsSpace c = true) ∧ (∀ c ∈ post, pyIsSpace c = true) := by
  refine ⟨((l.reverse.dropWhile pyIsSpace).reverse).takeWhile pyIsSpace,
          (l.reverse.takeWhile pyIsSpace).reverse, ?_, ?_, ?_⟩
  · have h1 : l = (l.reverse.dropWhile pyIsSpace).reverse ++
        (l.reverse.takeWhile pyIsSpace).reverse := by
      conv_lhs =>
        rw [← List.reverse_reverse l,
            ← List.takeWhile_append_dropWhile (p := pyIsSpace) (l := l.reverse)]
      rw [List.reverse_append]
    have h2 : (l.reverse.dropWhile pyIsSpace).reverse =
        ((l.reverse.dropWhile pyIsSpace).reverse).takeWhile pyIsSpace ++
          pyStripList l :=
      (List.takeWhile_append_dropWhile
        (p := pyIsSpace) (l := (l.reverse.dropWhile pyIsSpace).reverse)).symm
    calc l = (l.reverse.dropWhile pyIsSpace).reverse ++
              (l.reverse.takeWhile pyIsSpace).reverse := h1
      _ = (((l.reverse.dropWhile pyIsSpace).reverse).takeWhile pyIsSpace ++
            pyStripList l) ++ (l.reverse.takeWhile pyIsSpace).reverse := by
            rw [← h2]
      _ = ((l.reverse.dropWhile pyIsSpace).reverse).takeWhile pyIsSpace ++
            pyStripList l ++ (l.reverse.takeWhile pyIsSpace).reverse := by
            rw [List.append_assoc]
  · intro c hc
    exact List.mem_takeWhile_imp hc
  · intro c hc
    exact List.mem_takeWhile_imp (List.mem_reverse.mp hc)

/-! Facts about the store. -/

theorem find?_append_last {rs : List Row} {r : Row}
    (h : ∀ q ∈ rs, q.id ≠ r.id) :
    (rs ++ [r]).find? (fun q => q.id == r.id) = some r := by
  induction rs with
  | nil => simp [List.find?]
  | cons a as ih =>
    have ha : (a.id == r.id) = false := by
      simpa using h a (List.mem_cons_self a as)
    simp only [List.cons_append, List.find?, ha]
    exact ih fun q hq => h q (List.mem_cons_of_mem a hq)

theorem get_session_add (db : DB) (startT endT dur : ℚ) (notes : String)
    (hids : ∀ q ∈ db.rows, q.id < db.next_id) :
    get_session (add_session db startT endT dur notes).1
        (add_session db startT endT dur notes).2.id =
      some (add_session db startT endT dur notes).2 := by
  unfold get_session add_session
  exact find?_append_last fun q hq => Nat.ne_of_lt (hids q hq)

/-! Characterizations of the remaining handlers, one per control path. -/

theorem update_timer_not_running {now : ℚ} {s : AppState}
    (h : s.running = false) : update_timer now s = some s := by
  unfold update_timer
  rw [if_pos h]

theorem update_timer_stopwatch {now st : ℚ} {s : AppState}
    (hr : s.running = true) (hst : s.start_time = some st)
    (hm : s.mode = Mode.stopwatch) :
    update_timer now s = some { s with timer_job := true } := by
  unfold update_timer
  rw [if_neg (by simp [hr]), hst, hm]

theorem update_timer_timer_active {now st : ℚ} {s : AppState}
    (hr : s.running = true) (hst : s.start_time = some st)
    (hm : s.mode = Mode.timer)
    (hrem : ¬ max (s.target_seconds - ((now - st) + s.elapsed)) 0 ≤ 0) :
    update_timer now s = some { s with timer_job := true } := by
  unfold update_timer
  rw [if_neg (by simp [hr]), hst, hm]
  exact if_neg hrem

theorem update_timer_timer_done {now st : ℚ} {s : AppState}
    (hr : s.running = true) (hst : s.start_time = some st)
    (hm : s.mode = Mode.timer)
    (hrem : max (s.target_seconds - ((now - st) + s.elapsed)) 0 ≤ 0) :
    update_timer now s = (stop_session now s).map (fun p => p.1) := by
  unfold update_timer
  rw [if_neg (by simp [hr]), hst, hm]
  exact if_pos hrem

theorem update_timer_no_start {now : ℚ} {s : AppState}
    (hr : s.running = true) (hst : s.start_time = none) :
    update_timer now s = none := by
  unfold update_timer
  rw [if_neg (by simp [hr]), hst]

theorem start_session_running {now : ℚ} {m : Option ℕ} {s : AppState}
    (hr : s.running = true) : start_session now m s = some s := by
  unfold start_session
  rw [if_pos hr]

theorem start_session_stopwatch {now : ℚ} {m : Option ℕ} {s : AppState}
    (hr : s.running = false) (hm : s.mode = Mode.stopwatch) :
    start_session now m s =
      update_timer now
        { s with target_seconds := 0, start_time := some now,
                 running := true } := by
  unfold start_session
  rw [if_neg (by simp [hr]), hm]

theorem start_session_timer_cancelled {now : ℚ} {s : AppState}
    (hr : s.running = false) (hm : s.mode = Mode.timer) :
    start_session now none s = some s := by
  unfold start_session
  rw [if_neg (by simp [hr]), hm]

theorem start_session_timer {now : ℚ} {m : ℕ} {s : AppState}
    (hr : s.running = false) (hm : s.mode = Mode.timer) :
    start_session now (some m) s =
      update_timer now
        { s with target_seconds := (m : ℚ) * 60, elapsed := 0,
                 start_time := some now, running := true } := by
  unfold start_session
  rw [if_neg (by simp [hr]), hm]

theorem pause_session_not_running {now : ℚ} {s : AppState}
    (h : s.running = false) : pause_session now s = some s := by
  unfold pause_session
  rw [if_pos h]

theorem pause_session_running {now st : ℚ} {s : AppState}
    (hr : s.running = true) (hst : s.start_time = some st) :
    pause_session now s =
      some { s with timer_job := false,
                    elapsed := s.elapsed + (now - st),
                    running := false } := by
  unfold pause_session
  rw [if_neg (by simp [hr]), hst]

theorem pause_session_no_start {now : ℚ} {s : AppState}
    (hr : s.running = true) (hst : s.start_time = none) :
    pause_session now s = none := by
  unfold pause_session
  rw [if_neg (by simp [hr]), hst]

theorem resume_session_running {now : ℚ} {s : AppState}
    (h : s.running = true) : resume_session now s = some s := by
  unfold resume_session
  rw [if_pos h]

theorem resume_session_not_running {now : ℚ} {s : AppState}
    (h : s.running = false) :
    resume_session now s =
      update_timer now { s with start_time := some now, running := true } := by
  unfold resume_session
  rw [if_neg (by simp [h])]

/-! The open-session invariant: every reachable open state has a start
timestamp. -/

/-- If the session is open, `_start_time` is not `None`. -/
def Inv (s : AppState) : Prop := isOpen s → s.start_time ≠ none

theorem inv_stop {now : ℚ} {s : AppState} {p : AppState × StopOutcome}
    (h : stop_session now s = some p) (hs : Inv s) : Inv p.1 := by
  by_cases hopen : isOpen s
  · cases hst : s.start_time with
    | none => rw [stop_session_no_start s now hopen hst] at h; cases h
    | some st =>
      rw [stop_session_open s now st hst hopen] at h
      have hp := Option.some_inj.mp h
      rw [← hp]
      intro ho
      exact absurd ho (by simp [isOpen, stoppedState])
  · rw [stop_session_closed s now hopen] at h
    have hp := Option.some_inj.mp h
    rw [← hp]
    exact hs

theorem inv_update_timer {now : ℚ} {s s' : AppState}
    (h : update_timer now s = some s') (hs : Inv s) : Inv s' := by
  by_cases hr : s.running = true
  · cases hst : s.start_time with
    | none => rw [update_timer_no_start hr hst] at h; cases h
    | some st =>
      cases hmode : s.mode with
      | stopwatch =>
        rw [update_timer_stopwatch hr hst hmode] at h
        have hp := Option.some_inj.mp h
        rw [← hp]
        intro _
        simp [hst]
      | timer =>
        by_cases hrem :
            max (s.target_seconds - ((now - st) + s.elapsed)) 0 ≤ 0
        · rw [update_timer_timer_done hr hst hmode hrem] at h
          rcases Option.map_eq_some'.mp h with ⟨p, hp, hq⟩
          rw [← hq]
          exact inv_stop hp hs
        · rw [update_timer_timer_active hr hst hmode hrem] at h
          have hp := Option.some_inj.mp h
          rw [← hp]
          intro _
          simp [hst]
  · have hr' : s.running = false := by
      cases hb : s.running
      · rfl
      · exact absurd hb hr
    rw [update_timer_not_running hr'] at h
    have hp := Option.some_inj.mp h
    rw [← hp]
    exact hs

theorem inv_step {now : ℚ} {e : Ev} {s s' : AppState}
    (h : step now e s = some s') (hs : Inv s) : Inv s' := by
  have hbool : s.running = true ∨ s.running = false := by
    cases s.running
    · exact Or.inr rfl
    · exact Or.inl rfl
  cases e with
  | start m =>
    rcases hbool with hr | hr
    · rw [show step now (Ev.start m) s = start_session now m s from rfl,
        start_session_running hr] at h
      have hp := Option.some_inj.mp h
      rw [← hp]; exact hs
    · cases hmode : s.mode with
      | stopwatch =>
        rw [show step now (Ev.start m) s = start_session now m s from rfl,
          start_session_stopwatch hr hmode] at h
        exact inv_update_timer h (fun _ => by simp)
      | timer =>
        cases m with
        | none =>
          rw [show step now (Ev.start none) s = start_session now none s
              from rfl, start_session_timer_cancelled hr hmode] at h
          have hp := Option.some_inj.mp h
          rw [← hp]; exact hs
        | some k =>
          rw [show step now (Ev.start (some k)) s =
              start_session now (some k) s from rfl,
            start_session_timer hr hmode] at h
          exact inv_update_timer h (fun _ => by simp)
  | pause =>
    rcases hbool with hr | hr
    · cases hst : s.start_time with
      | none =>
        rw [show step now Ev.pause s = pause_session now s from rfl,
          pause_session_no_start hr hst] at h
        cases h
      | some st =>
        rw [show step now Ev.pause s = pause_session now s from rfl,
          pause_session_running hr hst] at h
        have hp := Option.some_inj.mp h
        rw [← hp]
        intro _
        simp [hst]
    · rw [show step now Ev.pause s = pause_session now s from rfl,
        pause_session_not_running hr] at h
      have hp := Option.some_inj.mp h
      rw [← hp]; exact hs
  | resume =>
    rcases hbool with hr | hr
    · rw [show step now Ev.resume s = resume_session now s from rfl,
        resume_session_running hr] at h
      have hp := Option.some_inj.mp h
      rw [← hp]; exact hs
    · rw [show step now Ev.resume s = resume_session now s from rfl,
        resume_session_not_running hr] at h
      exact inv_update_timer h (fun _ => by simp)
  | stop =>
    rcases Option.map_eq_some'.mp h with ⟨p, hp, hq⟩
    rw [← hq]
    exact inv_stop hp hs
  | tick =>
    by_cases hj : s.timer_job = true
    · rw [show step now Ev.tick s =
          (if s.timer_job = true then
            update_timer now { s with timer_job := false }
          else some s) from rfl, if_pos hj] at h
      exact inv_update_timer h (fun ho => hs ho)
    · rw [show step now Ev.tick s =
          (if s.timer_job = true then
            update_timer now { s with timer_job := false }
          else some s) from rfl, if_neg hj] at h
      have hp := Option.some_inj.mp h
      rw [← hp]; exact hs
  | modeChange m =>
    rw [show step now (Ev.modeChange m) s = on_mode_change now m s from rfl]
      at h
    unfold on_mode_change at h
    rcases Option.map_eq_some'.mp h with ⟨t, ht, hq⟩
    rw [← hq]
    by_cases hopen : ({ s with mode := m } : AppState).running = true ∨
        0 < ({ s with mode := m } : AppState).elapsed
    · rw [if_pos hopen] at ht
      rcases Option.map_eq_some'.mp ht with ⟨p, hp, hq2⟩
      rw [← hq2]
      exact fun ho => inv_stop hp (fun ho2 => hs ho2) ho
    · rw [if_neg hopen] at ht
      have hp := Option.some_inj.mp ht
      rw [← hp]
      exact fun ho => hs ho
  | setNotes n =>
    have hp := Option.some_inj.mp h
    rw [← hp]
    exact fun ho => hs ho

theorem inv_run {evs : List (ℚ × Ev)} {s s' : AppState}
    (h : run evs s = some s') (hs : Inv s) : Inv s' := by
  induction evs generalizing s with
  | nil =>
    have hp := Option.some_inj.mp h
    rw [← hp]; exact hs
  | cons te rest ih =>
    obtain ⟨t, e⟩ := te
    unfold run at h
    cases hstep : step t e s with
    | none => rw [hstep] at h; cases h
    | some s1 =>
      rw [hstep] at h
      exact ih h (inv_step hstep hs)

theorem inv_init (db : DB) : Inv (initState db) := by
  intro ho
  rcases ho with hr | he
  · exact absurd hr (by simp [initState])
  · exact absurd he (by simp [initState])

/-! Concrete states used to instantiate theorems with hypotheses. -/

/-- A stopwatch session running since t = 20 with 10 s accumulated (the
state after Start at 0, Pause at 10, Resume at 20). -/
def c2s : AppState :=
  { start_time := some 20
    elapsed := 10
    mode := Mode.stopwatch
    target_seconds := 0
    running := true
    timer_job := true
    notes := ""
    db := emptyDB }

/-- A countdown session with a 60 s target running since t = 0. -/
def c3s : AppState :=
  { start_time := some 0
    elapsed := 0
    mode := Mode.timer
    target_seconds := 60
    running := true
    timer_job := true
    notes := ""
    db := emptyDB }

/-- A stopwatch session running since t = 0 with nothing accumulated. -/
def c4s : AppState :=
  { start_time := some 0
    elapsed := 0
    mode := Mode.stopwatch
    target_seconds := 0
    running := true
    timer_job := true
    notes := ""
    db := emptyDB }

/-- A stopwatch session running since t = 3. -/
def c7so : AppState :=
  { start_time := some 3
    elapsed := 0
    mode := Mode.stopwatch
    target_seconds := 0
    running := true
    timer_job := true
    notes := ""
    db := emptyDB }

/-- A running stopwatch session with notes text surrounded by blanks. -/
def c8s : AppState :=
  { start_time := some 0
    elapsed := 0
    mode := Mode.stopwatch
    target_seconds := 0
    running := true
    timer_job := true
    notes := "  hi  "
    db := emptyDB }

/-- The state reached from `initState emptyDB` by Start(stopwatch) at 0. -/
def c10s : AppState :=
  { start_time := some 0
    elapsed := 0
    mode := Mode.stopwatch
    target_seconds := 0
    running := true
    timer_job := true
    notes := ""
    db := emptyDB }

/-! The claims. -/

/-- Claim C1 (divergence witness): on the trace Start(stopwatch) at t = 0,
Pause at t = 10, Stop at t = 25 the program persists duration 35, not the
10 seconds of Running-state time the claim demands: `stop_session` adds
`now - self._start_time` to `self._elapsed` even when the session is
paused, double-counting the 0–10 run segment (already accumulated by
Pause) and counting the paused 10–25 interval as well. -/
theorem C1_stop_from_paused_overcounts :
    (run [(0, Ev.start none), (10, Ev.pause), (25, Ev.stop)]
        (initState emptyDB)).map (fun s => s.db.rows.map Row.duration) =
      some [35] ∧ (35 : ℚ) ≠ 10 := by
  constructor
  · norm_num [run, step, start_session, pause_session, stop_session,
      update_timer, initState, add_session, emptyDB, pyStrip, pyStripList,
      pyIsSpace]
  · norm_num

/-- Claim C2 counterexample: Start at 0, Pause at 10, Resume at 20, Stop at
25 persists start_time = 20 (the Resume timestamp), not 0 (the first Start
timestamp), because `resume_session` overwrites `_start_time` and
`stop_session` persists `start = self._start_time`. -/
theorem C2_counterexample :
    (run [(0, Ev.start none), (10, Ev.pause), (20, Ev.resume), (25, Ev.stop)]
        (initState emptyDB)).map (fun s => s.db.rows.map Row.start_time) =
      some [20] ∧ (20 : ℚ) ≠ 0 := by
  constructor
  · norm_num [run, step, start_session, pause_session, resume_session,
      stop_session, update_timer, initState, add_session, emptyDB]
  · norm_num

/-- Claim C2 amended: the start_time that Stop persists is the controller's
current `_start_time`, i.e. the timestamp of the latest run segment's
Start/Resume, not the first Start: every saved stop writes
`r.start_time = st` for the current `_start_time = st`, and on the
Start/Pause/Resume/Stop trace with arbitrary times t0..t3 the stored
start_time is t2, the Resume timestamp. -/
theorem C2_amended_persists_segment_start :
    (∀ (s s1 : AppState) (now st : ℚ) (r : Row),
      s.start_time = some st →
      stop_session now s = some (s1, StopOutcome.saved r) →
      r.start_time = st) ∧
    ∀ t0 t1 t2 t3 : ℚ,
      (run [(t0, Ev.start none), (t1, Ev.pause), (t2, Ev.resume),
            (t3, Ev.stop)] (initState emptyDB)).map
          (fun s => s.db.rows.map Row.start_time) = some [t2] := by
  constructor
  · intro s s1 now st r hst h
    rcases stop_session_saved_inv h with ⟨st2, hst2, _, hr, _⟩
    rw [hst] at hst2
    cases Option.some_inj.mp hst2
    rw [hr]
    rfl
  · intro t0 t1 t2 t3
    simp [run, step, start_session, pause_session, resume_session,
      stop_session, update_timer, initState, add_session, emptyDB]

/-- Claim C2 amended, witness: stopping `c2s` (running since the Resume at
20) at t = 25 persists start_time 20. -/
theorem C2_witness : (stopRow 25 20 c2s).start_time = 20 :=
  C2_amended_persists_segment_start.1 c2s (stoppedState 25 20 c2s) 25 20
    (stopRow 25 20 c2s) rfl (stop_session_open c2s 25 20 rfl (Or.inl rfl))

/-- Claim C3: in countdown (timer) mode, whenever the elapsed time Stop
computes has reached target_seconds, the saved row's duration equals
target_seconds exactly, never more — the clamp branch of `stop_session`.
This covers auto-triggered stops too, since `_update_timer` finishes a
countdown by calling the same `stop_session`. -/
theorem C3_countdown_duration_clamped (s s1 : AppState) (now st : ℚ)
    (r : Row)
    (hmode : s.mode = Mode.timer)
    (hst : s.start_time = some st)
    (hreach : s.target_seconds ≤ (now - st) + s.elapsed)
    (h : stop_session now s = some (s1, StopOutcome.saved r)) :
    r.duration = s.target_seconds := by
  rcases stop_session_saved_inv h with ⟨st2, hst2, _, hr, _⟩
  rw [hst] at hst2
  cases Option.some_inj.mp hst2
  rw [hr]
  simp [stopRow, stopDuration, hmode, hreach]

/-- Claim C3 witness: the 60 s countdown `c3s` stopped at t = 61 (elapsed
61 ≥ 60) records duration exactly 60. -/
theorem C3_witness : (stopRow 61 0 c3s).duration = c3s.target_seconds :=
  C3_countdown_duration_clamped c3s (stoppedState 61 0 c3s) 61 0
    (stopRow 61 0 c3s) rfl rfl (by norm_num [c3s])
    (stop_session_open c3s 61 0 rfl (Or.inl rfl))

/-- Claim C4 counterexample: with a stopwatch session running since t = 0,
switching the mode to timer at t = 10 stores duration 0, not the 10 s the
outgoing stopwatch Stop contract would record: `_on_mode_change` sets
`self._mode` to the new mode BEFORE calling `stop_session`, so the stop
runs under the incoming timer mode, whose clamp (target 0 ≤ elapsed 10)
cuts the duration to 0. -/
theorem C4_counterexample :
    (run [(0, Ev.start none), (10, Ev.modeChange Mode.timer)]
        (initState emptyDB)).map (fun s => s.db.rows.map Row.duration) =
      some [0] ∧ (0 : ℚ) ≠ 10 := by
  constructor
  · norm_num [run, step, start_session, on_mode_change, stop_session,
      update_timer, initState, add_session, emptyDB]
  · norm_num

/-- Claim C4 amended: a mode change with an open session switches the mode
FIRST, then finalizes the open session through `stop_session` under the
INCOMING mode's Stop contract, and only afterwards resets target_seconds
to zero; the displayed-time reset touches no further state. -/
theorem C4_amended_stop_under_incoming_mode (s s1 : AppState) (now : ℚ)
    (m : Mode) (r : Row)
    (h : stop_session now { s with mode := m } =
      some (s1, StopOutcome.saved r)) :
    on_mode_change now m s = some { s1 with target_seconds := 0 } := by
  rcases stop_session_saved_inv h with ⟨st, hst, hopen, _, _⟩
  have hopen2 : s.running = true ∨ 0 < s.elapsed := hopen
  simp only [on_mode_change]
  rw [if_pos hopen2, h]
  rfl

/-- Claim C4 amended, witness: switching `c4s` (running stopwatch) to timer
mode at t = 10 stores the row `stop_session` computes under timer mode and
zeroes the target. -/
theorem C4_witness :
    on_mode_change 10 Mode.timer c4s =
      some { stoppedState 10 0 { c4s with mode := Mode.timer } with
               target_seconds := 0 } :=
  C4_amended_stop_under_incoming_mode c4s
    (stoppedState 10 0 { c4s with mode := Mode.timer }) 10 Mode.timer
    (stopRow 10 0 { c4s with mode := Mode.timer })
    (stop_session_open { c4s with mode := Mode.timer } 10 0 rfl (Or.inl rfl))

/-- Claim C5 counterexample: Start at 0, Pause at 5, Start again at 7 — the
third event is a Start from the Paused state, which the claim says must be
rejected; the code accepts it (`start_session` only checks `_running`) and,
in stopwatch mode, does not reset `_elapsed`: the final state is running
with elapsed still 5. -/
theorem C5_counterexample :
    (run [(0, Ev.start none), (5, Ev.pause), (7, Ev.start none)]
        (initState emptyDB)).map (fun s => (s.running, s.elapsed)) =
      some (true, 5) ∧ (5 : ℚ) ≠ 0 := by
  constructor
  · norm_num [run, step, start_session, pause_session, update_timer,
      initState, emptyDB]
  · norm_num

/-- Claim C5 amended: Start is accepted whenever `_running` is false (from
Idle or Paused; from Running it is a no-op).  An accepted Start sets
`_start_time = now` and `_running = true`; in timer mode it sets
`_target_seconds = minutes * 60` and resets `_elapsed` to 0 (a cancelled
prompt aborts with no change); in stopwatch mode it sets
`_target_seconds = 0` but leaves `_elapsed` unchanged. -/
theorem C5_amended_start_behaviour (s : AppState) (now : ℚ) (m : ℕ)
    (mo : Option ℕ) :
    (start_session now mo { s with running := true } =
      some { s with running := true }) ∧
    (start_session now mo { s with mode := Mode.stopwatch, running := false } =
      some { s with mode := Mode.stopwatch, target_seconds := 0,
                    start_time := some now, running := true,
                    timer_job := true }) ∧
    (start_session now (some (m + 1))
        { s with mode := Mode.timer, running := false } =
      some { s with mode := Mode.timer,
                    target_seconds := ((m + 1 : ℕ) : ℚ) * 60, elapsed := 0,
                    start_time := some now, running := true,
                    timer_job := true }) ∧
    (start_session now none { s with mode := Mode.timer, running := false } =
      some { s with mode := Mode.timer, running := false }) := by
  refine ⟨start_session_running rfl, ?_, ?_,
    start_session_timer_cancelled rfl rfl⟩
  · rw [start_session_stopwatch rfl rfl]
    rw [update_timer_stopwatch rfl rfl rfl]
  · rw [start_session_timer rfl rfl]
    have hpos : (0 : ℚ) < ((m + 1 : ℕ) : ℚ) * 60 := by
      have h1 : (0 : ℚ) < ((m + 1 : ℕ) : ℚ) := by
        exact_mod_cast Nat.succ_pos m
      nlinarith
    have hrem : ¬ max (((m + 1 : ℕ) : ℚ) * 60 - ((now - now) + 0)) 0 ≤ 0 := by
      have he : ((m + 1 : ℕ) : ℚ) * 60 - ((now - now) + 0) =
          ((m + 1 : ℕ) : ℚ) * 60 := by ring
      rw [he, max_eq_left hpos.le]
      exact not_le.mpr hpos
    rw [@update_timer_timer_active now now
      { s with mode := Mode.timer, target_seconds := ((m + 1 : ℕ) : ℚ) * 60,
               elapsed := 0, start_time := some now, running := true }
      rfl rfl rfl hrem]

/-- Claim C6 counterexample: Start at 0 schedules a tick callback; Stop at
5 saves the session but never calls `after_cancel`, so the callback is
still pending after Stop — contradicting "the pending scheduled callback
is cancelled on Pause, on Stop, and on mode change". -/
theorem C6_counterexample :
    (run [(0, Ev.start none), (5, Ev.stop)] (initState emptyDB)).map
        (fun s => s.timer_job) = some true ∧
    (run [(0, Ev.start none), (5, Ev.stop)] (initState emptyDB)).map
        (fun s => s.timer_job) ≠ some false := by
  have h : (run [(0, Ev.start none), (5, Ev.stop)] (initState emptyDB)).map
      (fun s => s.timer_job) = some true := by
    norm_num [run, step, start_session, stop_session, update_timer,
      initState, add_session, emptyDB]
  refine ⟨h, ?_⟩
  rw [h]
  simp

/-- Claim C6 amended: Pause cancels the pending tick callback, but Stop and
mode change do not; instead, a stale callback that fires while not Running
is stopped by the `_running` guard at the top of `_update_timer`: it is
consumed without mutating any other controller state and without
rescheduling. -/
theorem C6_amended_tick_guard (s : AppState) (now st : ℚ) :
    (pause_session now { s with start_time := some st, running := true } =
      some { s with start_time := some st, timer_job := false,
                    elapsed := s.elapsed + (now - st), running := false }) ∧
    (step now Ev.tick { s with running := false } =
      some { s with running := false, timer_job := false }) := by
  constructor
  · rw [pause_session_running rfl rfl]
  · simp only [step]
    by_cases hj : s.timer_job = true
    · rw [if_pos hj]
      rw [update_timer_not_running rfl]
    · rw [if_neg hj]
      have hj3 : s.timer_job = false := by
        cases hb : s.timer_job
        · rfl
        · exact absurd hb hj
      rw [hj3]

/-- Claim C7: Stop writes a record iff a session is open.  With nothing
open it returns the state untouched (no insert) together with the distinct
"nothing to stop" signal; with a session open (its start timestamp being
present) it saves a row; and an immediate Stop while running with elapsed
0 in stopwatch mode still writes a duration-0 record. -/
theorem C7_stop_iff_open (sc so : AppState) (now st : ℚ) :
    (¬ isOpen sc →
      stop_session now sc = some (sc, StopOutcome.nothingToStop)) ∧
    (isOpen so → so.start_time = some st →
      ∃ s1 r, stop_session now so = some (s1, StopOutcome.saved r)) ∧
    (∃ s1 r,
      stop_session now
          { so with mode := Mode.stopwatch, elapsed := 0,
                    start_time := some now, running := true } =
        some (s1, StopOutcome.saved r) ∧ r.duration = 0) := by
  refine ⟨fun hopen => stop_session_closed sc now hopen,
    fun hopen hst => ⟨_, _, stop_session_open so now st hst hopen⟩, ?_⟩
  refine ⟨_, _, stop_session_open _ now now rfl (Or.inl rfl), ?_⟩
  simp [stopRow, stopDuration]

/-- Claim C7 witness: stopping the freshly initialized (closed) state is
the signalled no-op, and stopping the open running state `c7so` saves a
record. -/
theorem C7_witness :
    stop_session 9 (initState emptyDB) =
      some (initState emptyDB, StopOutcome.nothingToStop) ∧
    ∃ s1 r, stop_session 9 c7so = some (s1, StopOutcome.saved r) :=
  ⟨(C7_stop_iff_open (initState emptyDB) c7so 9 3).1
      (by simp [isOpen, initState]),
   (C7_stop_iff_open (initState emptyDB) c7so 9 3).2.1 (Or.inl rfl) rfl⟩

/-- Claim C8: after Stop persists a session whose notes widget text is N,
GetById on the assigned id returns exactly the stored row, whose notes are
N with leading and trailing whitespace trimmed and the internal content
preserved verbatim (N decomposes as whitespace ++ stored notes ++
whitespace). -/
theorem C8_notes_roundtrip (s s1 : AppState) (now : ℚ) (r : Row)
    (hids : ∀ q ∈ s.db.rows, q.id < s.db.next_id)
    (h : stop_session now s = some (s1, StopOutcome.saved r)) :
    get_session s1.db r.id = some r ∧
    r.notes = pyStrip s.notes ∧
    ∃ pre post, s.notes.data = pre ++ r.notes.data ++ post ∧
      (∀ c ∈ pre, pyIsSpace c = true) ∧ (∀ c ∈ post, pyIsSpace c = true) := by
  rcases stop_session_saved_inv h with ⟨st, hst, hopen, hr, hs1⟩
  subst hr
  subst hs1
  have hnotes : (stopRow now st s).notes = pyStrip s.notes :=
    pyStrip_append_newline s.notes
  refine ⟨?_, hnotes, ?_⟩
  · exact get_session_add s.db st now (stopDuration now st s)
      (pyStrip (s.notes ++ "\n")) hids
  · rcases pyStripList_decomp s.notes.data with ⟨pre, post, heq, hpre, hpost⟩
    refine ⟨pre, post, ?_, hpre, hpost⟩
    rw [hnotes]
    exact heq

/-- Claim C8 witness: stopping `c8s` (notes "  hi  ") at t = 4 stores a row
whose lookup returns it, with notes "hi". -/
theorem C8_witness :
    get_session (stoppedState 4 0 c8s).db (stopRow 4 0 c8s).id =
      some (stopRow 4 0 c8s) ∧
    (stopRow 4 0 c8s).notes = pyStrip c8s.notes ∧
    ∃ pre post, c8s.notes.data = pre ++ (stopRow 4 0 c8s).notes.data ++ post ∧
      (∀ c ∈ pre, pyIsSpace c = true) ∧ (∀ c ∈ post, pyIsSpace c = true) :=
  C8_notes_roundtrip c8s (stoppedState 4 0 c8s) 4 (stopRow 4 0 c8s)
    (fun q hq => absurd hq (List.not_mem_nil q))
    (stop_session_open c8s 4 0 rfl (Or.inl rfl))

/-- Claim C9: ListSummaries (`get_all_sessions`) returns the
{id, start_time, duration} summary of every persisted row, in start_time
descending order, and an insert followed by a listing contains the new id
with the inserted start_time and duration. -/
theorem C9_list_summaries (db : DB) (startT endT dur : ℚ) (notes : String) :
    List.Pairwise (fun a b : ℕ × ℚ × ℚ => b.2.1 ≤ a.2.1)
      (get_all_sessions (add_session db startT endT dur notes).1) ∧
    ((add_session db startT endT dur notes).2.id, startT, dur) ∈
      get_all_sessions (add_session db startT endT dur notes).1 ∧
    ∀ q ∈ (add_session db startT endT dur notes).1.rows,
      (q.id, q.start_time, q.duration) ∈
        get_all_sessions (add_session db startT endT dur notes).1 := by
  have hall : ∀ q ∈ (add_session db startT endT dur notes).1.rows,
      (q.id, q.start_time, q.duration) ∈
        get_all_sessions (add_session db startT endT dur notes).1 := by
    intro q hq
    unfold get_all_sessions
    exact List.mem_map_of_mem _
      ((List.perm_insertionSort rowGe _).mem_iff.mpr hq)
  have hmem : (add_session db startT endT dur notes).2 ∈
      (add_session db startT endT dur notes).1.rows := by
    simp [add_session]
  exact ⟨List.pairwise_map.mpr (List.sorted_insertionSort rowGe _),
    hall _ hmem, hall⟩

/-- Claim C10: in every state reachable from the initial one by the UI
events, an open session implies `_start_time` is not `None`, and therefore
`stop_session` never has to subtract from a missing start timestamp (it
returns a defined result for every `now`). -/
theorem C10_open_has_start_time (evs : List (ℚ × Ev)) (db : DB)
    (s : AppState)
    (h : run evs (initState db) = some s) (ho : isOpen s) :
    s.start_time ≠ none ∧ ∀ now, (stop_session now s).isSome = true := by
  have hinv : Inv s := inv_run h (inv_init db)
  exact ⟨hinv ho, fun now => stop_session_isSome s now hinv⟩

/-- Claim C10 witness: the state reached by Start(stopwatch) at t = 0 is
open and has a start timestamp. -/
theorem C10_witness :
    c10s.start_time ≠ none ∧ ∀ now, (stop_session now c10s).isSome = true :=
  C10_open_has_start_time [(0, Ev.start none)] emptyDB c10s
    (by simp [run, step, start_session, update_timer, initState, emptyDB,
      c10s])
    (Or.inl rfl)

end StudyTracker
